import Mathlib

/-!
Shallow embedding of the shutdown-scheduler core of the rust-in-peace
application (src/src/app.rs), together with proofs about the claims of
its specification.

Modelling choices:
- chrono local timestamps are integer nanosecond counts since an arbitrary
  local epoch, at a fixed local offset (the application only uses the local
  offset; DST transitions are out of scope, so `with_time(..).unwrap()`,
  `from_local_datetime(..).unwrap()` and `checked_add_days(..).unwrap()`
  never fail in the model).
- the gloo `Timeout` handle is modelled by the numeric id of the scheduled
  timer; the environment (`World`) tracks the set of live timers, a fresh-id
  counter and how many times `invoke("shutdown_pc")` has run.
- a Rust panic is modelled by `Option.none` as the result of a step.
-/

namespace RustInPeace

/-- Nanoseconds per second: the resolution of chrono timestamps, and the
divisor used by `Duration::num_seconds`. -/
def nsPerSec : Int := 1000000000

/-- Nanoseconds per calendar day (fixed local offset, no DST). -/
def nsPerDay : Int := 86400000000000

/-- Size of the `u32` range, for the `as u32` cast of the timeout delay
(app.rs line 74). -/
def u32Size : Nat := 4294967296

/-- The `i64 -> u32` `as` cast of Rust: keep the low 32 bits
(two's complement for negative values). -/
def i64ToU32 (n : Int) : Nat := (n % (4294967296 : Int)).toNat

/-- The time-of-day component of a timestamp (chrono `.time()`), in
nanoseconds since local midnight. -/
def timeOfDay (t : Int) : Int := t % nsPerDay

/-- chrono `with_time`: keep the calendar day of `t`, replace the time of
day component. -/
def withTime (t : Int) (tod : Int) : Int := t - t % nsPerDay + tod

/-- The calendar day index of a timestamp. -/
def dayOf (t : Int) : Int := t / nsPerDay

/-- Numeric value of an ASCII digit character, `none` otherwise. -/
def digitVal (c : Char) : Option Nat :=
  if '0' ≤ c ∧ c ≤ '9' then some (c.toNat - 48) else none

/-- Greedy one-or-two-digit numeric field, as chrono parses the `%H` and
`%M` specifiers: one digit, or two when the second character is also a
digit; returns the value and the unconsumed rest. -/
def parseNum12 : List Char → Option (Nat × List Char)
  | [] => none
  | c :: rest =>
    match digitVal c with
    | none => none
    | some d1 =>
      match rest with
      | [] => some (d1, [])
      | c2 :: rest2 =>
        match digitVal c2 with
        | none => some (d1, rest)
        | some d2 => some (10 * d1 + d2, rest2)

/-- chrono `NaiveTime::parse_from_str(s, "%H:%M")` (app.rs line 152):
hour field, literal colon, minute field, nothing left over, hour in 0..=23
and minute in 0..=59; seconds default to zero. chrono additionally skips
leading whitespace inside numeric fields, which is not modelled because the
caller trims the input first (app.rs line 126). -/
def parseHHMM (s : String) : Option (Nat × Nat) :=
  match parseNum12 s.toList with
  | none => none
  | some (h, rest) =>
    match rest with
    | [] => none
    | c :: rest1 =>
      if c = ':' then
        match parseNum12 rest1 with
        | none => none
        | some (m, rest2) =>
          if rest2 = [] ∧ h ≤ 23 ∧ m ≤ 59 then some (h, m) else none
      else none

/-- Nanoseconds since midnight of the `NaiveTime` with the given hour and
minute (seconds are zero after a `%H:%M` parse). -/
def todOf (h m : Nat) : Int := ((h : Int) * 3600 + (m : Int) * 60) * nsPerSec

/-- App::parse_shutdown_time (app.rs lines 147-163): parse the string as
`%H:%M` and combine with the current local date. `none` models the panic
raised by the `.expect("Failed to parse time")` call on line 152: on
malformed input the function panics, it never returns a chrono `Err`. -/
def parse_shutdown_time (now : Int) (date_time_string : String) :
    Option Int :=
  match parseHHMM date_time_string with
  | none => none
  | some (h, m) => some (withTime now (todOf h m))

/-- The candidate-and-rollover computation of Msg::SetShutdownTimer
(app.rs lines 60-67): combine the current day with the stored time of day,
and add exactly one day when the current time is strictly past the
candidate (`current_time > new_time`). -/
def resolveTarget (current_time : Int) (tod : Int) : Int :=
  if withTime current_time tod < current_time then withTime current_time tod + nsPerDay
  else withTime current_time tod

/-- The TimeResolver of the specification: parsing (with its panic on
malformed input) followed by the rollover rule, as the code runs them on
the path SetTargetTime-then-Arm (app.rs lines 147-163 and 60-67). -/
def resolve (now : Int) (s : String) : Option Int :=
  match parse_shutdown_time now s with
  | none => none
  | some t => some (resolveTarget now (timeOfDay t))

/-- The confirmation-counter constant (app.rs line 15). -/
def FORCE_SHUTDOWN_COUNTER : Nat := 3

/-- The component state (app.rs lines 17-23). The timeout handle is the id
of the owned scheduled timer. -/
structure App where
  shutdown_time : Option Int
  timeout_handle : Option Nat
  force_shutdown_counter : Nat
  remain_second_for_shutdown : Nat
  is_countdown_active : Bool
deriving DecidableEq

/-- The messages of the component (app.rs lines 25-30). -/
inductive Msg where
  | UpdateShutdownTime (time : String)
  | SetShutdownTimer
  | Shutdown (is_from_system : Bool)
  | PredefinedShutdownTime (minutes : Int)

/-- The external environment: the live (scheduled and not cancelled) gloo
Timeouts as (id, delay in milliseconds) pairs, a fresh-id counter, and the
number of times `invoke("shutdown_pc")` has run. -/
structure World where
  liveTimers : List (Nat × Nat)
  nextId : Nat
  invoked : Nat
deriving DecidableEq

/-- `Timeout::cancel` on an optional owned handle (app.rs lines 56-58):
the timer with that id is removed from the live set and never fires. -/
def cancelTimer (w : World) (h : Option Nat) : World :=
  match h with
  | none => w
  | some i => { w with liveTimers := w.liveTimers.filter (fun p => p.1 ≠ i) }

/-- One step of Component::update (app.rs lines 46-100). `now` is the
`Local::now()` read at the start of the message and `now2` the second
`Local::now()` read for the duration (app.rs line 69). `none` models a
panic. -/
def update (now now2 : Int) (msg : Msg) (s : App) (w : World) :
    Option (App × World) :=
  match msg with
  | .UpdateShutdownTime time =>
    match parse_shutdown_time now time with
    | none => none
    | some parsed_time => some ({ s with shutdown_time := some parsed_time }, w)
  | .SetShutdownTimer =>
    let w1 := cancelTimer w s.timeout_handle
    let s1 := { s with timeout_handle := none }
    match s1.shutdown_time with
    | none => some (s1, w1)
    | some st =>
      let new_time := resolveTarget now (timeOfDay st)
      let secs := (new_time - now2).tdiv nsPerSec
      if 0 < secs then
        let ms := i64ToU32 secs * 1000 % u32Size
        some ({ s1 with timeout_handle := some w1.nextId, is_countdown_active := true },
              { w1 with liveTimers := (w1.nextId, ms) :: w1.liveTimers,
                        nextId := w1.nextId + 1 })
      else
        some (s1, w1)
  | .Shutdown is_from_system =>
    if s.force_shutdown_counter = 0 ∨ is_from_system then
      some (s, { w with invoked := w.invoked + 1 })
    else
      some ({ s with force_shutdown_counter := s.force_shutdown_counter - 1 }, w)
  | .PredefinedShutdownTime predefined_time =>
    some ({ s with shutdown_time := some (now + predefined_time * 60 * nsPerSec) }, w)

/-- Component::create (app.rs lines 36-44): shutdown_time starts as
`Some(Local::now())`. -/
def App.create (now : Int) : App where
  shutdown_time := some now
  timeout_handle := none
  force_shutdown_counter := FORCE_SHUTDOWN_COUNTER
  remain_second_for_shutdown := 0
  is_countdown_active := true

/-- The environment at component creation: no timer, nothing invoked. -/
def World.init : World where
  liveTimers := []
  nextId := 0
  invoked := 0

/-- Run a list of messages in order, propagating a panic. -/
def runMsgs (now now2 : Int) (msgs : List Msg) (s : App) (w : World) :
    Option (App × World) :=
  match msgs with
  | [] => some (s, w)
  | msg :: rest =>
    match update now now2 msg s w with
    | none => none
    | some (s1, w1) => runMsgs now now2 rest s1 w1

/-- States reachable from component creation by any message sequence, with
arbitrary clock readings at each step. -/
inductive Reachable : App → World → Prop where
  | init (now : Int) : Reachable (App.create now) World.init
  | step {s w s' w'} (now now2 : Int) (msg : Msg) :
      Reachable s w → update now now2 msg s w = some (s', w') → Reachable s' w'

/-- The live timers of the environment are exactly the one timer (if any)
whose handle the component owns. -/
def ownedTimers (s : App) (w : World) : Prop :=
  w.liveTimers.map Prod.fst = s.timeout_handle.toList

example : parseHHMM "14:05" = some (14, 5) := by decide
example : parseHHMM "9:30" = some (9, 30) := by decide
example : parseHHMM "25:99" = none := by decide
example : parseHHMM "abc" = none := by decide
example : parseHHMM "" = none := by decide
example : parseHHMM "123:45" = none := by decide
example : parseHHMM "14:0500" = none := by decide

/-- A successful `%H:%M` parse yields an hour in 0..=23 and a minute in
0..=59 (the range check of `Parsed::to_naive_time`). -/
lemma parseHHMM_bounds {str : String} {h m : Nat}
    (hp : parseHHMM str = some (h, m)) : h ≤ 23 ∧ m ≤ 59 := by
  unfold parseHHMM at hp
  repeat' split at hp
  all_goals simp_all

/-- The time of day parsed from `%H:%M` is a valid nanosecond offset into
the day. -/
lemma todOf_lt {h m : Nat} (hh : h ≤ 23) (hm : m ≤ 59) :
    0 ≤ todOf h m ∧ todOf h m < nsPerDay := by
  unfold todOf nsPerSec nsPerDay
  omega

/-- `with_time` really installs the requested time of day. -/
lemma timeOfDay_withTime (t : Int) {tod : Int} (h0 : 0 ≤ tod)
    (h1 : tod < nsPerDay) : timeOfDay (withTime t tod) = tod := by
  unfold timeOfDay withTime nsPerDay at *
  omega

/-- Day index of a day multiple plus a valid time of day. -/
lemma dayOf_decompose (q : Int) {tod : Int} (h0 : 0 ≤ tod)
    (h1 : tod < nsPerDay) : dayOf (nsPerDay * q + tod) = q := by
  unfold dayOf
  rw [show nsPerDay * q + tod = tod + nsPerDay * q from by ring,
      Int.add_mul_ediv_left tod q (show nsPerDay ≠ 0 from by unfold nsPerDay; norm_num),
      Int.ediv_eq_zero_of_lt h0 h1]
  ring

/-- Time of day of a day multiple plus a valid time of day. -/
lemma timeOfDay_decompose (q : Int) {tod : Int} (h0 : 0 ≤ tod)
    (h1 : tod < nsPerDay) : timeOfDay (nsPerDay * q + tod) = tod := by
  unfold timeOfDay
  rw [show nsPerDay * q + tod = tod + nsPerDay * q from by ring,
      Int.add_mul_emod_self_left, Int.emod_eq_of_lt h0 h1]

/-- Full behaviour of the candidate-and-rollover step on a valid time of
day: the result keeps the requested time of day; a time of day strictly
later than now's stays on the same calendar day and lies strictly in the
future; a strictly earlier one moves to the next calendar day and lies
strictly in the future; an exactly equal one is returned unchanged, i.e.
the result is `now` itself (no rollover on equality). -/
lemma resolveTarget_spec (now : Int) {tod : Int} (h0 : 0 ≤ tod)
    (h1 : tod < nsPerDay) :
    timeOfDay (resolveTarget now tod) = tod
    ∧ (timeOfDay now < tod →
        dayOf (resolveTarget now tod) = dayOf now ∧ now < resolveTarget now tod)
    ∧ (tod < timeOfDay now →
        dayOf (resolveTarget now tod) = dayOf now + 1
          ∧ now < resolveTarget now tod)
    ∧ (tod = timeOfDay now → resolveTarget now tod = now) := by
  have hsame : now - now % nsPerDay + tod = nsPerDay * (now / nsPerDay) + tod := by
    unfold nsPerDay at *
    omega
  have hnext : now - now % nsPerDay + tod + nsPerDay
      = nsPerDay * (now / nsPerDay + 1) + tod := by
    unfold nsPerDay at *
    omega
  refine ⟨?_, fun hlt => ⟨?_, ?_⟩, fun hlt => ⟨?_, ?_⟩, fun heq => ?_⟩
  · unfold resolveTarget withTime
    split
    · rw [hnext]
      exact timeOfDay_decompose _ h0 h1
    · rw [hsame]
      exact timeOfDay_decompose _ h0 h1
  · unfold timeOfDay at hlt
    unfold resolveTarget withTime
    rw [if_neg (show ¬ now - now % nsPerDay + tod < now from by
      unfold nsPerDay at *; omega), hsame, dayOf_decompose _ h0 h1]
    rfl
  · unfold timeOfDay at hlt
    unfold resolveTarget withTime
    rw [if_neg (show ¬ now - now % nsPerDay + tod < now from by
      unfold nsPerDay at *; omega)]
    unfold nsPerDay at *
    omega
  · unfold timeOfDay at hlt
    unfold resolveTarget withTime
    rw [if_pos (show now - now % nsPerDay + tod < now from by
      unfold nsPerDay at *; omega), hnext, dayOf_decompose _ h0 h1]
    rfl
  · unfold timeOfDay at hlt
    unfold resolveTarget withTime
    rw [if_pos (show now - now % nsPerDay + tod < now from by
      unfold nsPerDay at *; omega)]
    unfold nsPerDay at *
    omega
  · unfold timeOfDay at heq
    unfold resolveTarget withTime
    rw [if_neg (show ¬ now - now % nsPerDay + tod < now from by
      unfold nsPerDay at *; omega)]
    omega

/-- Claim C1 (code bug): on a malformed time string the SetTargetTime
operation does not absorb a ParseError — it panics inside
`parse_shutdown_time` at the `.expect("Failed to parse time")` call
(app.rs line 152), so the `Err(_) => {}` arm of Msg::UpdateShutdownTime
(app.rs line 51) is dead code. Evaluated here on "25:99", "abc" and the
empty string: each step is `none` (a panic), not a state with the prior
target retained. -/
theorem C1_malformed_input_panics :
    update 0 0 (Msg.UpdateShutdownTime "25:99") (App.create 0) World.init = none
    ∧ update 0 0 (Msg.UpdateShutdownTime "abc") (App.create 0) World.init = none
    ∧ update 0 0 (Msg.UpdateShutdownTime "") (App.create 0) World.init = none :=
  ⟨rfl, rfl, rfl⟩

/-- Claim C2 counterexample: three non-forced Shutdown messages from a
fresh state (confirm counter 3) invoke the external shutdown zero times —
the third click only decrements the counter to 0, contradicting the claim
that the third call invokes Shutdown. -/
theorem C2_three_clicks_invoke_nothing :
    (runMsgs 0 0 (List.replicate 3 (Msg.Shutdown false)) (App.create 0)
        World.init).map (fun p => p.2.invoked) = some 0 :=
  rfl

/-- Claim C2 amended: from a fresh state, the first three non-forced
Shutdown messages only decrement the counter 3 → 2 → 1 → 0 and invoke
nothing; the fourth call invokes the external shutdown (and a fifth call
invokes it again), and the counter floors at 0 throughout. -/
theorem C2_fourth_click_invokes (now now2 t : Int) :
    runMsgs now now2 (List.replicate 4 (Msg.Shutdown false)) (App.create t)
        World.init
      = some ({ shutdown_time := some t, timeout_handle := none,
                force_shutdown_counter := 0, remain_second_for_shutdown := 0,
                is_countdown_active := true },
              { liveTimers := [], nextId := 0, invoked := 1 })
    ∧ runMsgs now now2 (List.replicate 5 (Msg.Shutdown false)) (App.create t)
        World.init
      = some ({ shutdown_time := some t, timeout_handle := none,
                force_shutdown_counter := 0, remain_second_for_shutdown := 0,
                is_countdown_active := true },
              { liveTimers := [], nextId := 0, invoked := 2 }) :=
  ⟨rfl, rfl⟩

/-- Claim C3 counterexample: from a reachable state with confirm counter 1
(fresh component created at local time 01:00, then two non-forced Shutdown
clicks), a SetShutdownTimer message successfully arms a countdown (the
handle and the live timer with a 3600000 ms delay are visible in the
result) yet the counter stays 1 — it is not reset to
FORCE_SHUTDOWN_COUNTER. -/
theorem C3_arm_does_not_reset_counter :
    runMsgs 0 0 [Msg.Shutdown false, Msg.Shutdown false, Msg.SetShutdownTimer]
        (App.create 3600000000000) World.init
      = some ({ shutdown_time := some 3600000000000, timeout_handle := some 0,
                force_shutdown_counter := 1, remain_second_for_shutdown := 0,
                is_countdown_active := true },
              { liveTimers := [(0, 3600000)], nextId := 1, invoked := 0 })
    ∧ (1 : Nat) ≠ FORCE_SHUTDOWN_COUNTER :=
  ⟨rfl, by decide⟩

/-- Claim C4 counterexample: with `now` at exactly 14:00:00.000000000
(nanosecond 50400000000000 of the local day), resolving "14:00" yields
`now` itself — the exact-equality case does not roll over to the next day
and the result is not strictly in the future, contradicting the claim that
equality rolls over. -/
theorem C4_equal_time_of_day_does_not_roll_over :
    resolve 50400000000000 "14:00" = some 50400000000000
    ∧ ¬ (50400000000000 : Int) < 50400000000000 :=
  ⟨rfl, by decide⟩

/-- Claim C6: a forced trigger (Msg::Shutdown(true), as sent by the
countdown firing, app.rs lines 84-92) invokes the external shutdown
exactly once — the invocation count rises by exactly 1 — and leaves the
component state, in particular force_shutdown_counter, completely
unchanged. -/
theorem C6_forced_trigger_invokes_once (now now2 : Int) (s : App)
    (w : World) :
    update now now2 (Msg.Shutdown true) s w
      = some (s, { w with invoked := w.invoked + 1 }) := by
  simp [update]

/-- Claim C8 counterexample: when `target_time` is not set, Arm is not a
no-op — it still takes and cancels the existing countdown handle (app.rs
lines 56-58 run before the `is_some` check on line 59): from a state owning
handle 5 with a matching live timer, the handle is cleared and the timer
cancelled. -/
theorem C8_arm_without_target_still_cancels :
    update 0 0 Msg.SetShutdownTimer
        { shutdown_time := none, timeout_handle := some 5,
          force_shutdown_counter := 3, remain_second_for_shutdown := 0,
          is_countdown_active := true }
        { liveTimers := [(5, 1000)], nextId := 6, invoked := 0 }
      = some ({ shutdown_time := none, timeout_handle := none,
                force_shutdown_counter := 3, remain_second_for_shutdown := 0,
                is_countdown_active := true },
              { liveTimers := [], nextId := 6, invoked := 0 })
    ∧ ({ shutdown_time := none, timeout_handle := none,
         force_shutdown_counter := 3, remain_second_for_shutdown := 0,
         is_countdown_active := true } : App)
      ≠ { shutdown_time := none, timeout_handle := some 5,
          force_shutdown_counter := 3, remain_second_for_shutdown := 0,
          is_countdown_active := true } :=
  ⟨rfl, by decide⟩

/-- Claim C4 amended: for every valid "HH:MM" input and reference instant
`now`, the resolved target keeps the parsed time of day and: when the
parsed time of day is strictly after now's, it is on the same calendar day
and strictly greater than `now`; when strictly before, it is on the next
calendar day and strictly greater than `now`; when exactly equal (to the
nanosecond), rollover does NOT happen — the result is `now` itself, which
is not strictly in the future. -/
theorem C4_resolve_rollover (now : Int) (str : String) (h m : Nat)
    (hp : parseHHMM str = some (h, m)) :
    resolve now str = some (resolveTarget now (todOf h m))
    ∧ timeOfDay (resolveTarget now (todOf h m)) = todOf h m
    ∧ (timeOfDay now < todOf h m →
        dayOf (resolveTarget now (todOf h m)) = dayOf now
          ∧ now < resolveTarget now (todOf h m))
    ∧ (todOf h m < timeOfDay now →
        dayOf (resolveTarget now (todOf h m)) = dayOf now + 1
          ∧ now < resolveTarget now (todOf h m))
    ∧ (todOf h m = timeOfDay now → resolveTarget now (todOf h m) = now) := by
  obtain ⟨hh, hm⟩ := parseHHMM_bounds hp
  obtain ⟨ht0, ht1⟩ := todOf_lt hh hm
  refine ⟨?_, resolveTarget_spec now ht0 ht1⟩
  simp only [resolve, parse_shutdown_time, hp]
  rw [timeOfDay_withTime now ht0 ht1]

/-- Witness for C4: the amended theorem applied to now = 0 (midnight) and
the input "00:01", one minute later the same day. -/
theorem C4_resolve_rollover_witness :
    resolve 0 "00:01" = some (resolveTarget 0 (todOf 0 1))
    ∧ timeOfDay (resolveTarget 0 (todOf 0 1)) = todOf 0 1
    ∧ (timeOfDay 0 < todOf 0 1 →
        dayOf (resolveTarget 0 (todOf 0 1)) = dayOf 0
          ∧ 0 < resolveTarget 0 (todOf 0 1))
    ∧ (todOf 0 1 < timeOfDay 0 →
        dayOf (resolveTarget 0 (todOf 0 1)) = dayOf 0 + 1
          ∧ 0 < resolveTarget 0 (todOf 0 1))
    ∧ (todOf 0 1 = timeOfDay 0 → resolveTarget 0 (todOf 0 1) = 0) :=
  C4_resolve_rollover 0 "00:01" 0 1 rfl

/-- Claim C3 amended: a SetShutdownTimer message never changes
force_shutdown_counter — in particular it is NOT reset to
FORCE_SHUTDOWN_COUNTER when a new countdown is armed (no assignment to the
counter exists anywhere in the arm in app.rs lines 55-83 or in
App::set_shutdown_time, lines 165-168). -/
theorem C3_arm_never_changes_counter (now now2 : Int) (s : App) (w : World) :
    (update now now2 Msg.SetShutdownTimer s w).map
        (fun p => p.1.force_shutdown_counter)
      = some s.force_shutdown_counter := by
  cases s with
  | mk st th fc rs ia =>
    cases st with
    | none => rfl
    | some t =>
      simp only [update]
      split <;> rfl

/-- Cancelling the owned handle (the take-and-cancel of app.rs lines 56-58)
empties the live-timer set when the environment is in sync with the
component. -/
lemma cancelTimer_of_owned {s : App} {w : World} (hwf : ownedTimers s w) :
    cancelTimer w s.timeout_handle
      = { liveTimers := [], nextId := w.nextId, invoked := w.invoked } := by
  unfold ownedTimers at hwf
  cases w with
  | mk lt ni iv =>
    cases hth : s.timeout_handle with
    | none =>
      rw [hth] at hwf
      simp only [Option.toList] at hwf
      simp only [List.map_eq_nil_iff] at hwf
      simp [cancelTimer, hwf]
    | some i =>
      rw [hth] at hwf
      cases lt with
      | nil => simp at hwf
      | cons p rest =>
        simp only [Option.toList, List.map_cons, List.cons.injEq,
          List.map_eq_nil_iff] at hwf
        obtain ⟨hp1, hrest⟩ := hwf
        subst hrest
        simp [cancelTimer, hp1]

/-- An arm step keeps the environment in sync and leaves exactly one live
timer when a countdown was created, none otherwise. -/
lemma arm_owned {s s1 : App} {w w1 : World} {now now2 : Int}
    (hwf : ownedTimers s w)
    (h : update now now2 Msg.SetShutdownTimer s w = some (s1, w1)) :
    ownedTimers s1 w1
    ∧ w1.liveTimers.length = (if s1.timeout_handle.isSome then 1 else 0) := by
  have hc := cancelTimer_of_owned hwf
  cases s with
  | mk st th fc rs ia =>
    rw [show (App.mk st th fc rs ia).timeout_handle = th from rfl] at hc
    cases st with
    | none =>
      simp only [update] at h
      rw [hc] at h
      simp only [Option.some.injEq, Prod.mk.injEq] at h
      obtain ⟨h3, h4⟩ := h
      subst h3
      subst h4
      exact ⟨rfl, rfl⟩
    | some t =>
      simp only [update] at h
      rw [hc] at h
      split at h <;>
        (simp only [Option.some.injEq, Prod.mk.injEq] at h
         obtain ⟨h3, h4⟩ := h
         subst h3
         subst h4)
      · exact ⟨rfl, rfl⟩
      · exact ⟨rfl, rfl⟩

/-- Every step of the component keeps the live-timer set in sync with the
owned handle. -/
lemma ownedTimers_step {s s1 : App} {w w1 : World} {now now2 : Int}
    {msg : Msg} (hwf : ownedTimers s w)
    (h : update now now2 msg s w = some (s1, w1)) : ownedTimers s1 w1 := by
  cases msg with
  | SetShutdownTimer => exact (arm_owned hwf h).1
  | UpdateShutdownTime time =>
    cases s with
    | mk st th fc rs ia =>
      simp only [update] at h
      cases hp : parse_shutdown_time now time <;> rw [hp] at h
      · simp at h
      · simp only [Option.some.injEq, Prod.mk.injEq] at h
        obtain ⟨h3, h4⟩ := h
        subst h3
        subst h4
        exact hwf
  | Shutdown b =>
    cases s with
    | mk st th fc rs ia =>
      simp only [update] at h
      split at h <;>
        (simp only [Option.some.injEq, Prod.mk.injEq] at h
         obtain ⟨h3, h4⟩ := h
         subst h3
         subst h4
         exact hwf)
  | PredefinedShutdownTime mins =>
    cases s with
    | mk st th fc rs ia =>
      simp only [update, Option.some.injEq, Prod.mk.injEq] at h
      obtain ⟨h3, h4⟩ := h
      subst h3
      subst h4
      exact hwf

/-- Every reachable state has its live timers in sync with the owned
handle. -/
lemma reachable_owned {s : App} {w : World} (h : Reachable s w) :
    ownedTimers s w := by
  induction h with
  | init now => rfl
  | step now now2 msg hr heq ih => exact ownedTimers_step ih heq

/-- Claim C5: in every reachable state at most one live (pending,
uncancelled) countdown exists, and arming twice in succession — in
particular with an unchanged target_time — leaves exactly one live
countdown whenever the second arm created one (the second call
cancels-then-replaces, never leaving two). -/
theorem C5_at_most_one_live_countdown :
    (∀ (s : App) (w : World), Reachable s w → w.liveTimers.length ≤ 1)
    ∧ (∀ (s s1 s2 : App) (w w1 w2 : World) (n1 n2 n3 n4 : Int),
        Reachable s w →
        update n1 n2 Msg.SetShutdownTimer s w = some (s1, w1) →
        update n3 n4 Msg.SetShutdownTimer s1 w1 = some (s2, w2) →
        w2.liveTimers.length = if s2.timeout_handle.isSome then 1 else 0) := by
  constructor
  · intro s w hr
    have hwf := reachable_owned hr
    unfold ownedTimers at hwf
    have hlen : w.liveTimers.length = (w.liveTimers.map Prod.fst).length :=
      (List.length_map _ _).symm
    rw [hlen, hwf]
    cases s.timeout_handle <;> simp [Option.toList]
  · intro s s1 s2 w w1 w2 n1 n2 n3 n4 hr h1 h2
    exact (arm_owned (arm_owned (reachable_owned hr) h1).1 h2).2

/-- Witness for C5: a fresh component created at 01:00 local time, with two
immediate SetShutdownTimer messages at local midnight; the second arming
leaves exactly one live timer. -/
theorem C5_at_most_one_live_countdown_witness :
    ({ liveTimers := [(1, 3600000)], nextId := 2, invoked := 0 } : World).liveTimers.length
      = if (some 1 : Option Nat).isSome then 1 else 0 :=
  C5_at_most_one_live_countdown.2 (App.create 3600000000000)
    { shutdown_time := some 3600000000000, timeout_handle := some 0,
      force_shutdown_counter := 3, remain_second_for_shutdown := 0,
      is_countdown_active := true }
    { shutdown_time := some 3600000000000, timeout_handle := some 1,
      force_shutdown_counter := 3, remain_second_for_shutdown := 0,
      is_countdown_active := true }
    World.init
    { liveTimers := [(0, 3600000)], nextId := 1, invoked := 0 }
    { liveTimers := [(1, 3600000)], nextId := 2, invoked := 0 }
    0 0 0 0 (Reachable.init 3600000000000) rfl rfl

/-- Every step started from a state whose target is set produces a state
whose target is still set: SetTargetTime stores Some on success (and
panics, producing no state, on failure), ApplyPreset stores Some, and the
other messages do not touch the target. -/
lemma update_keeps_target_some {s s1 : App} {w w1 : World} {now now2 : Int}
    {msg : Msg} (hs : s.shutdown_time.isSome = true)
    (h : update now now2 msg s w = some (s1, w1)) :
    s1.shutdown_time.isSome = true := by
  cases msg with
  | UpdateShutdownTime time =>
    cases s with
    | mk st th fc rs ia =>
      simp only [update] at h
      cases hp : parse_shutdown_time now time <;> rw [hp] at h
      · simp at h
      · simp only [Option.some.injEq, Prod.mk.injEq] at h
        obtain ⟨h3, h4⟩ := h
        subst h3
        rfl
  | SetShutdownTimer =>
    cases s with
    | mk st th fc rs ia =>
      cases st with
      | none => simp at hs
      | some t =>
        simp only [update] at h
        split at h <;>
          (simp only [Option.some.injEq, Prod.mk.injEq] at h
           obtain ⟨h3, h4⟩ := h
           subst h3
           rfl)
  | Shutdown b =>
    cases s with
    | mk st th fc rs ia =>
      simp only [update] at h
      split at h <;>
        (simp only [Option.some.injEq, Prod.mk.injEq] at h
         obtain ⟨h3, h4⟩ := h
         subst h3
         exact hs)
  | PredefinedShutdownTime mins =>
    cases s with
    | mk st th fc rs ia =>
      simp only [update, Option.some.injEq, Prod.mk.injEq] at h
      obtain ⟨h3, h4⟩ := h
      subst h3
      rfl

/-- Claim C9: in every reachable state shutdown_time is Some — it is
initialised to Some(the current local time) at component creation
(app.rs line 38) and every subsequent write stores Some, so the
missing-target branch of Arm is never taken. -/
theorem C9_target_time_always_set {s : App} {w : World}
    (h : Reachable s w) : s.shutdown_time.isSome = true := by
  induction h with
  | init now => rfl
  | step now now2 msg hr heq ih => exact update_keeps_target_some ih heq

/-- Witness for C9: the freshly created component (startup timestamp 0)
has its target set. -/
theorem C9_target_time_always_set_witness :
    (App.create 0).shutdown_time.isSome = true :=
  C9_target_time_always_set (Reachable.init 0)

/-- Arming a target that lies strictly between zero and one day after the
reference instant resolves back to exactly that target: the arm-time
recomputation (time of day plus rollover) loses nothing. -/
lemma resolveTarget_timeOfDay_add (now d : Int) (h0 : 0 < d)
    (h1 : d < nsPerDay) :
    resolveTarget now (timeOfDay (now + d)) = now + d := by
  unfold resolveTarget withTime timeOfDay nsPerDay at *
  split <;> omega

/-- Claim C7: ApplyPreset(m) (Msg::PredefinedShutdownTime, app.rs lines
93-98) sets target_time to exactly now + m minutes and touches nothing
else — neither the countdown handle nor the environment; and an immediate
Arm after ApplyPreset(10) schedules a single countdown with a delay of
exactly 600000 ms (10 minutes). -/
theorem C7_apply_preset_then_arm (now now2 mins : Int) (s : App)
    (w : World) :
    update now now2 (Msg.PredefinedShutdownTime mins) s w
      = some ({ s with shutdown_time := some (now + mins * 60 * nsPerSec) }, w)
    ∧ update now now Msg.SetShutdownTimer
        { s with shutdown_time := some (now + 600 * nsPerSec) } w
      = some ({ s with
                shutdown_time := some (now + 600 * nsPerSec)
                timeout_handle := some (cancelTimer w s.timeout_handle).nextId
                is_countdown_active := true },
              { liveTimers := ((cancelTimer w s.timeout_handle).nextId, 600000)
                  :: (cancelTimer w s.timeout_handle).liveTimers,
                nextId := (cancelTimer w s.timeout_handle).nextId + 1,
                invoked := (cancelTimer w s.timeout_handle).invoked }) := by
  constructor
  · rfl
  · cases s with
    | mk st th fc rs ia =>
      simp only [update]
      rw [resolveTarget_timeOfDay_add now (600 * nsPerSec)
          (by unfold nsPerSec; norm_num)
          (by unfold nsPerSec nsPerDay; norm_num)]
      rw [show now + 600 * nsPerSec - now = 600 * nsPerSec from by ring]
      rw [if_pos (show (0 : Int) < (600 * nsPerSec).tdiv nsPerSec from by decide)]
      rfl

/-- Claim C8 amended: Arm with no target set is not a complete no-op — it
still takes and cancels any existing countdown handle — but performs no
other change, creates no countdown and does not crash; and when the
computed delay is not positive, arming is skipped the same way: the handle
is cleared and cancelled, no countdown is created, and no crash occurs. -/
theorem C8_arm_skips_without_target_or_delay (now now2 : Int) (s : App)
    (w : World) :
    (s.shutdown_time = none →
      update now now2 Msg.SetShutdownTimer s w
        = some ({ s with timeout_handle := none },
                cancelTimer w s.timeout_handle))
    ∧ (∀ st, s.shutdown_time = some st →
        (resolveTarget now (timeOfDay st) - now2).tdiv nsPerSec ≤ 0 →
        update now now2 Msg.SetShutdownTimer s w
          = some ({ s with timeout_handle := none },
                  cancelTimer w s.timeout_handle)) := by
  constructor
  · intro hnone
    cases s with
    | mk st th fc rs ia =>
      cases st with
      | none => rfl
      | some t => simp at hnone
  · intro st hsome hle
    cases s with
    | mk st0 th fc rs ia =>
      cases st0 with
      | none => simp at hsome
      | some t =>
        have ht : some t = some st := hsome
        injection ht with ht2
        subst ht2
        simp only [update]
        rw [if_neg (by omega)]

/-- Witness for C8: the two skip paths evaluated concretely — a state with
no target (Arm leaves it bare, cancelling nothing), and a fresh component
created at local midnight armed at that very instant (delay 0, so no
countdown is created). -/
theorem C8_arm_skips_witness :
    update 0 0 Msg.SetShutdownTimer
        { shutdown_time := none, timeout_handle := none,
          force_shutdown_counter := 3, remain_second_for_shutdown := 0,
          is_countdown_active := true } World.init
      = some ({ shutdown_time := none, timeout_handle := none,
                force_shutdown_counter := 3, remain_second_for_shutdown := 0,
                is_countdown_active := true },
              cancelTimer World.init none)
    ∧ update 0 0 Msg.SetShutdownTimer (App.create 0) World.init
      = some ({ shutdown_time := some 0, timeout_handle := none,
                force_shutdown_counter := 3, remain_second_for_shutdown := 0,
                is_countdown_active := true },
              cancelTimer World.init none) :=
  ⟨(C8_arm_skips_without_target_or_delay 0 0
      { shutdown_time := none, timeout_handle := none,
        force_shutdown_counter := 3, remain_second_for_shutdown := 0,
        is_countdown_active := true } World.init).1 rfl,
   (C8_arm_skips_without_target_or_delay 0 0 (App.create 0) World.init).2
      0 rfl (by decide)⟩

/-- Claim C10: whenever Arm actually creates a countdown (the computed
whole-second delay is positive), that delay is strictly below 86400, so
the `as u32` cast is lossless and the millisecond multiplication stays at
or below 86400000, far below 2^32 — no overflow or wraparound occurs in
`duration.num_seconds() as u32 * 1000` (app.rs line 74), provided clock
time did not go backwards between the two `Local::now()` reads. -/
theorem C10_delay_conversion_no_overflow (now now2 st : Int)
    (hnn : now ≤ now2)
    (hpos : 0 < (resolveTarget now (timeOfDay st) - now2).tdiv nsPerSec) :
    (resolveTarget now (timeOfDay st) - now2).tdiv nsPerSec < 86400
    ∧ i64ToU32 ((resolveTarget now (timeOfDay st) - now2).tdiv nsPerSec)
        * 1000 % u32Size
      = ((resolveTarget now (timeOfDay st) - now2).tdiv nsPerSec).toNat * 1000
    ∧ ((resolveTarget now (timeOfDay st) - now2).tdiv nsPerSec).toNat * 1000
      ≤ 86400000 := by
  have hub : resolveTarget now (timeOfDay st) - now2 < nsPerDay := by
    unfold resolveTarget withTime timeOfDay nsPerDay
    split <;> omega
  have hdpos : 0 < resolveTarget now (timeOfDay st) - now2 := by
    by_contra hc
    push_neg at hc
    have h1 : 0 ≤ (-(resolveTarget now (timeOfDay st) - now2)).tdiv nsPerSec :=
      Int.tdiv_nonneg (by omega) (by unfold nsPerSec; norm_num)
    rw [Int.neg_tdiv] at h1
    omega
  have he : (resolveTarget now (timeOfDay st) - now2).tdiv nsPerSec
      = (resolveTarget now (timeOfDay st) - now2) / nsPerSec :=
    Int.tdiv_eq_ediv (le_of_lt hdpos) (by unfold nsPerSec; norm_num)
  have hlt : (resolveTarget now (timeOfDay st) - now2) / nsPerSec < 86400 := by
    unfold nsPerSec
    unfold nsPerDay at hub
    omega
  have hsecs : (resolveTarget now (timeOfDay st) - now2).tdiv nsPerSec < 86400 := by
    rw [he]
    exact hlt
  refine ⟨hsecs, ?_, by omega⟩
  unfold i64ToU32 u32Size
  rw [Int.emod_eq_of_lt (by omega) (by omega)]
  rw [Nat.mod_eq_of_lt (by omega)]

/-- Witness for C10: a fresh component created at 01:00 local time, armed
at local midnight: the delay is 3600 seconds, inside the proven bounds. -/
theorem C10_delay_conversion_no_overflow_witness :
    (resolveTarget 0 (timeOfDay 3600000000000) - 0).tdiv nsPerSec < 86400
    ∧ i64ToU32 ((resolveTarget 0 (timeOfDay 3600000000000) - 0).tdiv nsPerSec)
        * 1000 % u32Size
      = ((resolveTarget 0 (timeOfDay 3600000000000) - 0).tdiv nsPerSec).toNat
          * 1000
    ∧ ((resolveTarget 0 (timeOfDay 3600000000000) - 0).tdiv nsPerSec).toNat
        * 1000 ≤ 86400000 :=
  C10_delay_conversion_no_overflow 0 0 3600000000000 (by decide) (by decide)

end RustInPeace
